import Mathlib

/-!
Verification of the FRED_API repository core

A shallow embedding, in Lean 4, of the two algorithmic cores of the repository:

* `CacheTool.py` — the TTL-backed request cache (`Cacher`): `read_cached_data`,
  `write_cached_data`, `save_cache_file`, `load_cache_file`, and the
  `CacheStats` counters.
* `FRED_API.py` — the request layer (`make_api_request`, `make_caching_request`,
  `get_rest_data`, `get_child_categories`, `get_children_series`) and the
  depth-bounded traversal/aggregation engine (`process_category`,
  `process_children_series`, `process_series`).

Modelling conventions, stated once here:

* Python `datetime` instants are modelled as `Int` (a fixed linear time scale
  in seconds); `timedelta(hours = h)` is `h * 3600` on that scale.
* A timestamp *string* stored in a cache entry is modelled by the quotient of
  the string space under the behaviour of `datetime.fromisoformat`: `TStamp.good t`
  stands for any string that parses to the (aware, UTC) instant `t`, and
  `TStamp.bad s` for any string on which the `try` block of
  `read_cached_data` raises (unparsable text, or a naive timestamp whose
  subtraction from `datetime.now(timezone.utc)` raises `TypeError`).
  `datetime.isoformat` of the instant `t` is `TStamp.good t`; the Python
  round trip `fromisoformat (isoformat t) = t` holds for aware datetimes.
* JSON-serialisable Python payloads are modelled by `Value`; Python `None` is
  `Value.null`.  Python truthiness of a payload is `Value.truthy`.
* A Python dict acting as a finite map is modelled as a function into
  `Option`; `d[k] = v` is pointwise update, `d.get(k)` is application.
* I/O, logging and `sleep` throttling have no effect on any value computed
  here and are dropped; the *outcomes* of I/O (the loaded file, the remote
  response, JSON decoding) are passed in explicitly as data / environment
  functions.
-/

/-- JSON-style payload values, the shape of everything `json.load`/`json.loads`
can produce plus Python `None` (`null`).  Used both for cached data and for
decoded REST responses. -/
inductive Value where
  | null
  | bool (b : Bool)
  | num (n : Int)
  | str (s : String)
  | arr (items : List Value)
  | obj (fields : List (String × Value))

/-- Python truthiness of a payload: `None`, `False`, `0`, `""`, `[]`, `{}` are
falsy, everything else truthy.  This is the `if not data :` test of
`make_caching_request` and the `if num_series and seriess :` style tests. -/
def Value.truthy : Value → Bool
  | .null => false
  | .bool b => b
  | .num n => n != 0
  | .str s => !s.isEmpty
  | .arr items => !items.isEmpty
  | .obj fields => !fields.isEmpty

/-- Python `None | str` (the result type of `make_api_request`) injected into
`Value`: `None` becomes `null`, a response text becomes `str`. -/
def pyOptStr : Option String → Value
  | none => Value.null
  | some s => Value.str s

/-- A cache-entry timestamp string, modelled by its `fromisoformat` behaviour
(see the module docstring): `good t` parses to instant `t`, `bad s` makes the
`try` block of `read_cached_data` raise. -/
inductive TStamp where
  | good (t : Int)
  | bad (s : String)

/-- Python `datetime.fromisoformat` on the quotient: the instant, when the string
parses (and is usable in aware-datetime arithmetic), else failure. -/
def fromisoformat : TStamp → Option Int
  | .good t => some t
  | .bad _ => none

/-- Python `datetime.timedelta(hours = h)` on the `Int` time scale (seconds). -/
def timedeltaHours (h : Int) : Int := h * 3600

/-- One cache entry, the value dict `{ "timestamp" : ..., "data" : ... }` of
`Cacher.cache_dict`.  `timestamp = none` models a missing `"timestamp"` key
(and also an empty timestamp string: both fail the `if timestampStr :`
truthiness test in `read_cached_data` and lead to the same `invalid` path).
A missing `"data"` key and a stored `None` both read back as Python `None`,
so `data` is a `Value` with `null` covering both. -/
structure CacheEntry where
  timestamp : Option TStamp
  data : Value

/-- The nested `Cacher.CacheStats` counters. -/
structure CacheStats where
  num_hits : Nat
  num_misses : Nat
  num_expired : Nat
  num_invalid : Nat
  deriving DecidableEq

/-- Counter method `CacheStats.hit`. -/
def CacheStats.hit (s : CacheStats) : CacheStats := { s with num_hits := s.num_hits + 1 }

/-- Counter method `CacheStats.miss`. -/
def CacheStats.miss (s : CacheStats) : CacheStats := { s with num_misses := s.num_misses + 1 }

/-- Counter method `CacheStats.expired`. -/
def CacheStats.expired (s : CacheStats) : CacheStats := { s with num_expired := s.num_expired + 1 }

/-- Counter method `CacheStats.invalid`. -/
def CacheStats.invalid (s : CacheStats) : CacheStats := { s with num_invalid := s.num_invalid + 1 }

/-- Sum of the four counters; exactly one `read_cached_data` outcome bumps
exactly one of them, so this total advances by one per (enabled) read. -/
def statsTotal (s : CacheStats) : Nat :=
  s.num_hits + s.num_misses + s.num_expired + s.num_invalid

/-- The in-memory store `Cacher.cache_dict`: a dict keyed by request URL. -/
def CacheDict : Type := String → Option CacheEntry

/-- The `Cacher` instance state: the fields set in `Cacher.__init__` that
subsequent calls read or write. -/
structure Cacher where
  enabled : Bool
  cache_expiration_hours : Int
  cache_dict : CacheDict
  stats : CacheStats

/-- Embeds `Cacher.read_cached_data`, with `now` the value of
`datetime.now(timezone.utc)` at the moment of the call.  Returns the Python
return value (`none` = Python `None`, `some d` = the `"data"` payload of the entry)
together with the updated `Cacher` (only `stats` can change). -/
def read_cached_data (now : Int) (c : Cacher) (key : String) : Option Value × Cacher :=
  if c.enabled = false then
    (none, c)
  else
    match c.cache_dict key with
    | none => (none, { c with stats := c.stats.miss })
    | some cache_entry =>
      match cache_entry.timestamp with
      | some timestampStr =>
        match fromisoformat timestampStr with
        | some timestampUTC =>
          if now - timestampUTC < timedeltaHours c.cache_expiration_hours then
            (some cache_entry.data, { c with stats := c.stats.hit })
          else
            (none, { c with stats := c.stats.expired })
        | none =>
          -- the except-branch of the try: fall through to the invalid path
          (none, { c with stats := c.stats.invalid })
      | none => (none, { c with stats := c.stats.invalid })

/-- Embeds `Cacher.write_cached_data`: unconditional insert-or-replace of the entry
for `key`, timestamped with the current UTC instant (when enabled). -/
def write_cached_data (now : Int) (c : Cacher) (key : String) (data : Value) : Cacher :=
  if c.enabled = false then
    c
  else
    let cache_entry : CacheEntry := { timestamp := some (TStamp.good now), data := data }
    { c with cache_dict := fun k => if k = key then some cache_entry else c.cache_dict k }

/-- The persisted representation (the JSON cache file): `none` when absent. -/
def CacheFile : Type := Option CacheDict

/-- Embeds `Cacher.save_cache_file`: overwrites the file with the whole store when
enabled and the write succeeds (`writeOk` is the outcome of the `try` around
`open`/`json.dump`; a failure is logged and leaves the file as it was). -/
def save_cache_file (c : Cacher) (writeOk : Bool) (file : CacheFile) : CacheFile :=
  if c.enabled = false then
    file
  else if writeOk then some c.cache_dict else file

/-- The outcome of `open`/`json.load` in `Cacher.load_cache_file`: the decoded
store, a `FileNotFoundError`, or any other exception (malformed file). -/
inductive LoadSource where
  | found (d : CacheDict)
  | notFound
  | malformed

/-- Embeds `Cacher.load_cache_file`: populate the store from the file; a missing file
is non-fatal, a malformed file disables the cache for the rest of the run. -/
def load_cache_file (c : Cacher) (src : LoadSource) : Cacher :=
  if c.enabled = false then
    c
  else
    match src with
    | .found d => { c with cache_dict := d }
    | .notFound => c
    | .malformed => { c with enabled := false }

/-- The configuration values of `CONFIG["FRED_API"]` that the traversal engine
reads: `LIMIT_DEPTH` (maximum traversal depth) and `LIMIT_SERIES` (maximum
series requested/displayed per category). -/
structure Config where
  limitDepth : Nat
  limitSeries : Nat

/-- One element of the `"seriess"` list of a `category/series` response.  The
traversal reads `series["id"]` and `series["title"]`; the remaining optional
attributes (`notes`, `frequency`, dates, ...) feed only the presentation-only
annotation child nodes of `process_series`, on which no count, identifier or
returned total depends, so they are not tracked. -/
structure SeriesItem where
  id : String
  title : String
  deriving DecidableEq

/-- The fields of a `category/series` response dict that
`process_children_series` reads via `.get`: the server-reported total
`"count"` and the delivered item list `"seriess"`.  `none` models a missing
field — in particular the empty dict `{}` that `get_rest_data` returns on any
failure is `⟨none, none⟩`. -/
structure SeriesResp where
  count : Option Nat
  seriess : Option (List SeriesItem)
  deriving DecidableEq

/-- Python truthiness of `num_series` (`.get("count")`): present and nonzero. -/
def truthyCount : Option Nat → Bool
  | none => false
  | some n => n != 0

/-- Python truthiness of `seriess` (`.get("seriess")`): present and non-empty. -/
def truthySeriess : Option (List SeriesItem) → Bool
  | none => false
  | some l => !l.isEmpty

/-- One node of the remote category hierarchy as the traversal observes it:
the `id` and `name` taken from the category dict, the `category/series`
response for this node, and the list of child-category dicts produced by the
`category/children` response.  A failed or empty `category/children` response
(`{}`, a missing `"categories"` key, or an empty list) is uniformly the empty
list: all of those are falsy under the `if categories :` test in the source and are
observationally identical there. -/
inductive Cat where
  | mk (id : String) (name : String) (children_series : SeriesResp)
       (children_categories : List Cat)

/-- Accessor for `categoryDict["id"]`. -/
def Cat.id : Cat → String
  | .mk i _ _ _ => i

/-- Accessor for `categoryDict["name"]`. -/
def Cat.name : Cat → String
  | .mk _ n _ _ => n

/-- The mutations the traversal performs on the shared `treelib` tree, in
order.  `create_node(tag, identifier, parent)` becomes the three node-creation
events; appending text to the `.tag` of an existing node becomes `labelAppend`.
The rendered tag of the `additionalSeries` node is
`"plus {num_remaining} additional series..."`; the event keeps the number. -/
inductive TEvent where
  | catNode (identifier : String) (tag : String) (parent : String)
  | seriesNode (identifier : String) (tag : String) (parent : String)
  | additionalSeries (num_remaining : Int) (parent : String)
  | labelAppend (identifier : String) (text : String)
  deriving DecidableEq

/-- Holds exactly on series header nodes (one per `process_series` call). -/
def TEvent.isSeriesNode : TEvent → Bool
  | .seriesNode _ _ _ => true
  | _ => false

/-- Holds exactly on the synthetic `"plus N additional series..."` node. -/
def TEvent.isAdditional : TEvent → Bool
  | .additionalSeries _ _ => true
  | _ => false

/-- Everything one `process_category` call produces or mutates:
the returned pair `(num_descendent_categories, num_descendent_series)`,
the `AppStats` increments it issues (`inc_categories` / `inc_series`),
the tree mutations in order, and the list of category ids actually *visited*
(a category is visited when its call passes the depth guard and issues its two
remote requests; ids appear in visit order). -/
structure TravResult where
  num_descendent_categories : Nat
  num_descendent_series : Nat
  stat_categories : Nat
  stat_series : Nat
  events : List TEvent
  visited : List String
  deriving DecidableEq

/-- Embeds `Application.process_series`, reduced to its tree mutation that carries
identity: the series header node `[{id}] {title}` with identifier
`{categoryID}/{seriesID}`, child of the node of the owning category.  (The optional
notes-excerpt and attributes child nodes are presentation-only; see
`SeriesItem`.) -/
def process_series (series : SeriesItem) (categoryID : String) : List TEvent :=
  let text := "[" ++ series.id ++ "] " ++ series.title
  let nodeIdentifier := categoryID ++ "/" ++ series.id
  [TEvent.seriesNode nodeIdentifier text categoryID]

/-- The inner function `process_children_series` of `process_category`.
Returns `(num_series, num_descendent_series)` as in the source, paired with
the tree mutations.  `num_remaining` is tracked as an `Int` exactly as the
Python int: it starts at the server-reported total and is decremented once per
materialized series, so it can in principle go negative, and the synthetic
node is created only when it is strictly positive.  The slice
`seriess[:LIMIT_SERIES]` is `List.take` (the configured limit is a
non-negative count). -/
def process_children_series (cfg : Config) (children_series : SeriesResp)
    (categoryID : String) : Nat × Nat × List TEvent :=
  let num_series_opt := children_series.count
  let seriess_opt := children_series.seriess
  if truthyCount num_series_opt && truthySeriess seriess_opt then
    let num_series := num_series_opt.getD 0
    let seriess := seriess_opt.getD []
    let num_descendent_series := num_series
    let loop := (seriess.take cfg.limitSeries).foldl
      (fun (acc : Int × List TEvent) series =>
        (acc.1 - 1, acc.2 ++ process_series series categoryID))
      ((num_series : Int), [])
    let num_remaining := loop.1
    let events :=
      if num_remaining > 0 then
        loop.2 ++ [TEvent.additionalSeries num_remaining categoryID]
      else
        loop.2
    (num_series, num_descendent_series, events)
  else
    (0, 0, [])

mutual

/-- Embeds `Application.process_category`: the depth guard, the series pass, the
child-category pass with recursion at `depth + 1`, and the final label
annotation of the node of this category.  The `stat_*` fields record
`self.stats.inc_series(num_series)` and `self.stats.inc_categories(len(categories))`
(each a no-op increment of 0 on the respective falsy branch). -/
def process_category (cfg : Config) (depth : Nat) (categoryDict : Cat) : TravResult :=
  match categoryDict with
  | .mk categoryID _categoryName children_series children_categories =>
    if depth > cfg.limitDepth then
      ⟨0, 0, 0, 0, [], []⟩
    else
      let s := process_children_series cfg children_series categoryID
      let num_series := s.1
      let num_descendent_series₀ := s.2.1
      let categories := children_categories
      let sub :=
        if categories.isEmpty then
          ((0 : Nat), (⟨0, 0, 0, 0, [], []⟩ : TravResult))
        else
          (categories.length, process_child_categories cfg depth categoryID categories)
      let num_categories := sub.1
      let childR := sub.2
      let num_descendent_categories := num_categories + childR.num_descendent_categories
      let num_descendent_series := num_descendent_series₀ + childR.num_descendent_series
      let labelEvents :=
        (if num_categories > 0 ∨ num_descendent_categories > 0 then
          [TEvent.labelAppend categoryID
            (", contains " ++ toString num_categories ++ "/" ++
              toString num_descendent_categories ++ " categories")]
        else []) ++
        (if num_series > 0 ∨ num_descendent_series > 0 then
          [TEvent.labelAppend categoryID
            (", contains " ++ toString num_series ++ "/" ++
              toString num_descendent_series ++ " series")]
        else [])
      { num_descendent_categories := num_descendent_categories
        num_descendent_series := num_descendent_series
        stat_categories := num_categories + childR.stat_categories
        stat_series := num_series + childR.stat_series
        events := s.2.2 ++ childR.events ++ labelEvents
        visited := categoryID :: childR.visited }

/-- The `for subdict in categories :` loop of `process_category`: for each
child, create its tree node first (`[#{id}] {name}`), then recurse at
`depth + 1` and accumulate the returned descendant counts. -/
def process_child_categories (cfg : Config) (depth : Nat) (parentID : String) :
    List Cat → TravResult
  | [] => ⟨0, 0, 0, 0, [], []⟩
  | subdict :: rest =>
    let text := "[#" ++ subdict.id ++ "] " ++ subdict.name
    let nodeEvent := TEvent.catNode subdict.id text parentID
    let r := process_category cfg (depth + 1) subdict
    let rr := process_child_categories cfg depth parentID rest
    { num_descendent_categories := r.num_descendent_categories + rr.num_descendent_categories
      num_descendent_series := r.num_descendent_series + rr.num_descendent_series
      stat_categories := r.stat_categories + rr.stat_categories
      stat_series := r.stat_series + rr.stat_series
      events := nodeEvent :: (r.events ++ rr.events)
      visited := r.visited ++ rr.visited }

end

/-- Python `str.lower()`, character by character.  (On the ASCII alphabet of
REST paths this agrees with the full Unicode lowering of Python.) -/
def pyLower (s : String) : String := ⟨s.data.map Char.toLower⟩

/-- The Python substring test `needle in hay` on strings, as used by the
sanity check of `get_rest_data`. -/
def strContains (hay needle : String) : Bool :=
  hay.data.tails.any fun t => List.isPrefixOf needle.data t

/-- The constant `API_KEY_PARAM_NAME`. -/
def API_KEY_PARAM_NAME : String := "api_key"

/-- The external collaborators of the request layer, fields of `Application`
or ambient libraries, passed in explicitly:
`base_url` is `CONFIG["FRED_API"]["BASE_URL"]`;
`api_key_param` is `Application.API_KEY_PARAMETER` (`"api_key=" + <key>`);
`remote` is `urllib.request.urlopen` + `.read().decode("utf-8")` on a fully
assembled URL, `none` when it raises;
`json_loads` is `json.loads` on a response text, `none` when it raises. -/
structure Env where
  base_url : String
  api_key_param : String
  remote : String → Option String
  json_loads : String → Option Value

/-- The mutable `Application` state the request layer touches: the `Cacher`
and the `AppStats.total_server_calls` counter. -/
structure AppState where
  cacher : Cacher
  total_server_calls : Nat

/-- Embeds `Application.make_api_request`: count the server call, throttle (a pure
delay, no modelled effect), append the secret key parameter to the URL — the
key is deliberately absent from `requestURL` itself — and perform the live
call, returning `none` when it raises. -/
def make_api_request (env : Env) (requestURL : String) (st : AppState) :
    Option String × AppState :=
  let st' := { st with total_server_calls := st.total_server_calls + 1 }
  let urlWithKey := requestURL ++ "&" ++ env.api_key_param
  (env.remote urlWithKey, st')

/-- Embeds `Application.make_caching_request`, with `now` the instant of the call.
Returns the response payload (Python `None` = `Value.null`), the updated
state, and — as pure instrumentation for the key-hygiene property — the list
of cache keys passed to `read_cached_data` / `write_cached_data`, in order. -/
def make_caching_request (env : Env) (now : Int) (requestURL : String) (st : AppState) :
    Value × AppState × List String :=
  let r := read_cached_data now st.cacher requestURL
  let data := (r.1).getD Value.null
  let st₁ : AppState := { st with cacher := r.2 }
  if data.truthy = false then
    let live := make_api_request env requestURL st₁
    let data := pyOptStr live.1
    let st₂ : AppState := { live.2 with cacher := write_cached_data now live.2.cacher requestURL data }
    (data, st₂, [requestURL, requestURL])
  else
    (data, st₁, [requestURL])

/-- The full URL assembled by `get_rest_data`:
`"{base_url}/{rest_path}&file_type=json"`. -/
def full_url (base_url rest_path : String) : String :=
  base_url ++ "/" ++ rest_path ++ "&file_type=json"

/-- The result of `get_rest_data`: either the process aborts (`exit(-999)`,
the api_key sanity check fired before any request was made), or a decoded
payload together with the updated state and the instrumented cache-key list
of the underlying `make_caching_request` call. -/
inductive RestResult where
  | aborted
  | ok (v : Value) (st : AppState) (cache_keys : List String)

/-- Embeds `Application.get_rest_data`: assemble the full URL (never containing the
key), abort if the `api_key` parameter name occurs in the lower-cased rest
path, otherwise fetch through the caching layer and decode; any failure in
the `try` (a `None`/non-string payload, or `json.loads` raising) is caught
and yields the empty dict. -/
def get_rest_data (env : Env) (now : Int) (rest_path : String) (st : AppState) :
    RestResult :=
  let fullURL := full_url env.base_url rest_path
  if strContains (pyLower rest_path) API_KEY_PARAM_NAME then
    RestResult.aborted
  else
    let r := make_caching_request env now fullURL st
    match r.1 with
    | Value.str s =>
      match env.json_loads s with
      | some v => RestResult.ok v r.2.1 r.2.2
      | none => RestResult.ok (Value.obj []) r.2.1 r.2.2
    | _ => RestResult.ok (Value.obj []) r.2.1 r.2.2

/-- The rest path assembled by `Application.get_child_categories`. -/
def child_categories_path (parentCategoryID : String) : String :=
  "category/children?category_id=" ++ parentCategoryID

/-- The rest path assembled by `Application.get_children_series` (the request
is already limited to `LIMIT_SERIES` items). -/
def children_series_path (limitSeries : Nat) (parentCategoryID : String) : String :=
  "category/series?category_id=" ++ parentCategoryID ++ "&limit=" ++ toString limitSeries

/-- Embeds `Application.get_child_categories`. -/
def get_child_categories (env : Env) (now : Int) (parentCategoryID : String)
    (st : AppState) : RestResult :=
  get_rest_data env now (child_categories_path parentCategoryID) st

/-- Embeds `Application.get_children_series`. -/
def get_children_series (env : Env) (now : Int) (limitSeries : Nat)
    (parentCategoryID : String) (st : AppState) : RestResult :=
  get_rest_data env now (children_series_path limitSeries parentCategoryID) st

/-- Fresh counters, as in `CacheStats.__init__`. -/
def zeroStats : CacheStats := ⟨0, 0, 0, 0⟩

/-- A `Cacher` constructed with `enabled = False` (empty store, 24h TTL). -/
def disabledCacher : Cacher := ⟨false, 24, fun _ => none, zeroStats⟩

/-- An enabled `Cacher` with an empty store and 24h TTL. -/
def enabledEmptyCacher : Cacher := ⟨true, 24, fun _ => none, zeroStats⟩

/-- An enabled `Cacher` whose store holds, for the URL `"u"`, an entry written
at instant 0 whose `"data"` is `None` — exactly what a failed remote call
leaves behind. -/
def nullEntryCacher : Cacher :=
  ⟨true, 24,
    fun k => if k = "u" then some ⟨some (TStamp.good 0), Value.null⟩ else none,
    zeroStats⟩

/-- An environment whose remote host is unreachable (every live call raises). -/
def failingEnv : Env := ⟨"https://api.stlouisfed.org/fred", "api_key=k", fun _ => none, fun _ => none⟩

/-- An environment whose remote host always answers `"resp"` and whose decoder
always succeeds with an empty object. -/
def okEnv : Env :=
  ⟨"https://api.stlouisfed.org/fred", "api_key=k", fun _ => some "resp", fun _ => some (Value.obj [])⟩

/-- Application state over `enabledEmptyCacher`, no server calls yet. -/
def st0 : AppState := ⟨enabledEmptyCacher, 0⟩

/-- Application state over `nullEntryCacher`, 5 server calls so far. -/
def st1 : AppState := ⟨nullEntryCacher, 5⟩

/-- A grandchild category of the depth-limit scenario: no series response
data, no subcategories. -/
def depthScenarioGrandchild (i : String) : Cat :=
  Cat.mk i ("grandchild " ++ i) ⟨none, none⟩ []

/-- A child category of the depth-limit scenario, with one subcategory. -/
def depthScenarioChild (i gi : String) : Cat :=
  Cat.mk i ("child " ++ i) ⟨none, none⟩ [depthScenarioGrandchild gi]

/-- The root of the depth-limit scenario of the specification: two child
categories, each with one child category of its own. -/
def depthScenarioRoot : Cat :=
  Cat.mk "0" "<root>" ⟨none, none⟩ [depthScenarioChild "1" "3", depthScenarioChild "2" "4"]

/-- A category with a server-reported series total of 5, one delivered series
item and no subcategories. -/
def smallCat : Cat :=
  Cat.mk "10" "small" ⟨some 5, some [⟨"S1", "Series one"⟩]⟩ []

/-- A category whose series response carries a server-reported total of 500
but an *empty* delivered item list, and no subcategories. -/
def emptySeriesCat : Cat :=
  Cat.mk "20" "empty" ⟨some 500, some []⟩ []

theorem pc_unfold (cfg : Config) (d : Nat) (i n : String) (sr : SeriesResp) (cats : List Cat) :
    process_category cfg d (.mk i n sr cats)
      = if d > cfg.limitDepth then ⟨0, 0, 0, 0, [], []⟩
        else
          let s := process_children_series cfg sr i
          let sub :=
            if cats.isEmpty then ((0 : Nat), (⟨0, 0, 0, 0, [], []⟩ : TravResult))
            else (cats.length, process_child_categories cfg d i cats)
          let num_categories := sub.1
          let childR := sub.2
          let ndc := num_categories + childR.num_descendent_categories
          let nds := s.2.1 + childR.num_descendent_series
          let labelEvents :=
            (if num_categories > 0 ∨ ndc > 0 then
              [TEvent.labelAppend i (", contains " ++ toString num_categories ++ "/" ++ toString ndc ++ " categories")]
            else []) ++
            (if s.1 > 0 ∨ nds > 0 then
              [TEvent.labelAppend i (", contains " ++ toString s.1 ++ "/" ++ toString nds ++ " series")]
            else [])
          ⟨ndc, nds, num_categories + childR.stat_categories, s.1 + childR.stat_series,
            s.2.2 ++ childR.events ++ labelEvents, i :: childR.visited⟩ := rfl

theorem pcc_nil (cfg : Config) (d : Nat) (p : String) :
    process_child_categories cfg d p [] = ⟨0, 0, 0, 0, [], []⟩ := rfl

theorem pcc_cons (cfg : Config) (d : Nat) (p : String) (c : Cat) (rest : List Cat) :
    process_child_categories cfg d p (c :: rest)
      = let r := process_category cfg (d + 1) c
        let rr := process_child_categories cfg d p rest
        ⟨r.num_descendent_categories + rr.num_descendent_categories,
         r.num_descendent_series + rr.num_descendent_series,
         r.stat_categories + rr.stat_categories,
         r.stat_series + rr.stat_series,
         TEvent.catNode c.id ("[#" ++ c.id ++ "] " ++ c.name) p :: (r.events ++ rr.events),
         r.visited ++ rr.visited⟩ := rfl

/-- Helper: complete case analysis of an enabled `read_cached_data` call —
miss, hit, expired, and the two invalid shapes — with the exact result and
counter bump of each branch. -/
theorem read_cached_data_cases (now : Int) (c : Cacher) (k : String)
    (he : c.enabled = true) :
    (c.cache_dict k = none ∧
       read_cached_data now c k = (none, { c with stats := c.stats.miss })) ∨
    (∃ e t, c.cache_dict k = some e ∧ e.timestamp = some (TStamp.good t) ∧
       ((now - t < timedeltaHours c.cache_expiration_hours ∧
           read_cached_data now c k = (some e.data, { c with stats := c.stats.hit })) ∨
        (¬ now - t < timedeltaHours c.cache_expiration_hours ∧
           read_cached_data now c k = (none, { c with stats := c.stats.expired })))) ∨
    (∃ e, c.cache_dict k = some e ∧
       (e.timestamp = none ∨ ∃ s, e.timestamp = some (TStamp.bad s)) ∧
       read_cached_data now c k = (none, { c with stats := c.stats.invalid })) := by
  have he' : ¬ c.enabled = false := by simp [he]
  cases hd : c.cache_dict k with
  | none =>
    left
    exact ⟨rfl, by simp [read_cached_data, he', hd]⟩
  | some e =>
    cases hts : e.timestamp with
    | none =>
      right; right
      exact ⟨e, rfl, Or.inl hts, by simp [read_cached_data, he', hd, hts]⟩
    | some ts =>
      cases ts with
      | bad s =>
        right; right
        exact ⟨e, rfl, Or.inr ⟨s, hts⟩,
          by simp [read_cached_data, he', hd, hts, fromisoformat]⟩
      | good t =>
        right; left
        by_cases hlt : now - t < timedeltaHours c.cache_expiration_hours
        · exact ⟨e, t, rfl, hts, Or.inl ⟨hlt,
            by simp [read_cached_data, he', hd, hts, fromisoformat, hlt]⟩⟩
        · exact ⟨e, t, rfl, hts, Or.inr ⟨hlt,
            by simp [read_cached_data, he', hd, hts, fromisoformat, hlt]⟩⟩

/-- C3: on an enabled cache, a `write_cached_data k v` followed by a
`read_cached_data k` whose age `now' - now` is strictly below the configured
TTL returns exactly `v`; and in general a read returns a cached value *only
if* an entry exists for the key, its timestamp parses, and its age is
strictly below the TTL — the returned value being the data of that entry. -/
theorem cache_write_read_within_ttl (c : Cacher) (k : String) (v : Value)
    (now now' : Int) (henabled : c.enabled = true)
    (hage : now' - now < timedeltaHours c.cache_expiration_hours) :
    (read_cached_data now' (write_cached_data now c k v) k).1 = some v ∧
    (∀ (c₂ : Cacher) (k₂ : String) (n₂ : Int) (v₂ : Value),
      (read_cached_data n₂ c₂ k₂).1 = some v₂ →
      c₂.enabled = true ∧ ∃ e t, c₂.cache_dict k₂ = some e ∧
        e.timestamp = some (TStamp.good t) ∧
        n₂ - t < timedeltaHours c₂.cache_expiration_hours ∧ v₂ = e.data) := by
  have he' : ¬ c.enabled = false := by simp [henabled]
  constructor
  · simp [write_cached_data, he', read_cached_data, fromisoformat, hage]
  · intro c₂ k₂ n₂ v₂ h
    by_cases he₂ : c₂.enabled = true
    · rcases read_cached_data_cases n₂ c₂ k₂ he₂ with
        ⟨_, hr⟩ | ⟨e, t, hd, hts, ⟨hlt, hr⟩ | ⟨_, hr⟩⟩ | ⟨e, _, _, hr⟩
      · rw [hr] at h; exact absurd h (by simp)
      · rw [hr] at h
        exact ⟨he₂, e, t, hd, hts, hlt, (Option.some.injEq _ _ ▸ h).symm⟩
      · rw [hr] at h; exact absurd h (by simp)
      · rw [hr] at h; exact absurd h (by simp)
    · have : c₂.enabled = false := by
        cases hb : c₂.enabled
        · rfl
        · exact absurd hb he₂
      simp [read_cached_data, this] at h

/-- Witness for `cache_write_read_within_ttl` at a concrete instance: an
enabled empty cache, key `"x"`, value `"payload"`, written at instant 0 and
read back 3600 seconds (1 hour) later against a 24-hour TTL. -/
theorem cache_write_read_within_ttl_witness :
    enabledEmptyCacher.enabled = true ∧
    (3600 : Int) - 0 < timedeltaHours enabledEmptyCacher.cache_expiration_hours ∧
    (read_cached_data 3600 (write_cached_data 0 enabledEmptyCacher "x" (Value.str "payload")) "x").1
      = some (Value.str "payload") :=
  ⟨rfl, by decide,
    (cache_write_read_within_ttl enabledEmptyCacher "x" (Value.str "payload") 0 3600
      rfl (by decide)).1⟩

/-- C4 (amended: restricted to an *enabled* cache — a read on a disabled cache
returns early and touches no counter, see the counterexample): every enabled
`read_cached_data` call increments exactly one of the four counters — miss
when no entry exists, hit when the timestamp parses and the age is strictly
within the TTL, expired when it parses but the age is not within the TTL,
invalid when the timestamp is missing or fails to parse; the counters never
decrease, and no other cache operation (`write_cached_data`,
`load_cache_file`) ever changes them (`save_cache_file` computes only the
file). -/
theorem read_increments_exactly_one_counter (now : Int) (c : Cacher) (k : String)
    (henabled : c.enabled = true) :
    (c.cache_dict k = none →
        (read_cached_data now c k).2.stats = c.stats.miss) ∧
    (∀ e t, c.cache_dict k = some e → e.timestamp = some (TStamp.good t) →
        (now - t < timedeltaHours c.cache_expiration_hours →
            (read_cached_data now c k).2.stats = c.stats.hit) ∧
        (¬ now - t < timedeltaHours c.cache_expiration_hours →
            (read_cached_data now c k).2.stats = c.stats.expired)) ∧
    (∀ e, c.cache_dict k = some e → e.timestamp = none →
        (read_cached_data now c k).2.stats = c.stats.invalid) ∧
    (∀ e s, c.cache_dict k = some e → e.timestamp = some (TStamp.bad s) →
        (read_cached_data now c k).2.stats = c.stats.invalid) ∧
    statsTotal (read_cached_data now c k).2.stats = statsTotal c.stats + 1 ∧
    (c.stats.num_hits ≤ (read_cached_data now c k).2.stats.num_hits ∧
     c.stats.num_misses ≤ (read_cached_data now c k).2.stats.num_misses ∧
     c.stats.num_expired ≤ (read_cached_data now c k).2.stats.num_expired ∧
     c.stats.num_invalid ≤ (read_cached_data now c k).2.stats.num_invalid) ∧
    (∀ (now₂ : Int) (c₂ : Cacher) (k₂ : String) (v₂ : Value),
        (write_cached_data now₂ c₂ k₂ v₂).stats = c₂.stats) ∧
    (∀ (c₂ : Cacher) (src : LoadSource), (load_cache_file c₂ src).stats = c₂.stats) := by
  have hcases := read_cached_data_cases now c k henabled
  refine ⟨?_, ?_, ?_, ?_, ?_, ?_, ?_, ?_⟩
  · intro hd
    rcases hcases with ⟨_, hr⟩ | ⟨e, t, hd', _⟩ | ⟨e, hd', _⟩
    · rw [hr]
    · rw [hd] at hd'; exact absurd hd' (by simp)
    · rw [hd] at hd'; exact absurd hd' (by simp)
  · intro e t hd hts
    rcases hcases with ⟨hd', _⟩ | ⟨e', t', hd', hts', ⟨hlt, hr⟩ | ⟨hlt, hr⟩⟩ |
        ⟨e', hd', hts', hr⟩
    · rw [hd] at hd'; exact absurd hd' (by simp)
    · rw [hd] at hd'
      obtain rfl : e' = e := by simpa using hd'.symm
      rw [hts] at hts'
      obtain rfl : t' = t := by simpa [TStamp.good.injEq] using hts'.symm
      exact ⟨fun _ => by rw [hr], fun hc => absurd hlt hc⟩
    · rw [hd] at hd'
      obtain rfl : e' = e := by simpa using hd'.symm
      rw [hts] at hts'
      obtain rfl : t' = t := by simpa [TStamp.good.injEq] using hts'.symm
      exact ⟨fun hc => absurd hc hlt, fun _ => by rw [hr]⟩
    · rw [hd] at hd'
      obtain rfl : e' = e := by simpa using hd'.symm
      rcases hts' with hnone | ⟨s, hbad⟩
      · rw [hts] at hnone; exact absurd hnone (by simp)
      · rw [hts] at hbad; exact absurd hbad (by simp)
  · intro e hd hts
    rcases hcases with ⟨hd', _⟩ | ⟨e', t', hd', hts', _⟩ | ⟨e', hd', _, hr⟩
    · rw [hd] at hd'; exact absurd hd' (by simp)
    · rw [hd] at hd'
      obtain rfl : e' = e := by simpa using hd'.symm
      rw [hts] at hts'; exact absurd hts' (by simp)
    · rw [hr]
  · intro e s hd hts
    rcases hcases with ⟨hd', _⟩ | ⟨e', t', hd', hts', _⟩ | ⟨e', hd', _, hr⟩
    · rw [hd] at hd'; exact absurd hd' (by simp)
    · rw [hd] at hd'
      obtain rfl : e' = e := by simpa using hd'.symm
      rw [hts] at hts'
      simp at hts'
    · rw [hr]
  · rcases hcases with ⟨_, hr⟩ | ⟨e, t, _, _, ⟨_, hr⟩ | ⟨_, hr⟩⟩ | ⟨e, _, _, hr⟩ <;>
      rw [hr] <;>
      simp [statsTotal, CacheStats.miss, CacheStats.hit, CacheStats.expired,
        CacheStats.invalid] <;> omega
  · rcases hcases with ⟨_, hr⟩ | ⟨e, t, _, _, ⟨_, hr⟩ | ⟨_, hr⟩⟩ | ⟨e, _, _, hr⟩ <;>
      rw [hr] <;>
      simp [CacheStats.miss, CacheStats.hit, CacheStats.expired, CacheStats.invalid]
  · intro now₂ c₂ k₂ v₂
    by_cases he₂ : c₂.enabled = false <;> simp [write_cached_data, he₂]
  · intro c₂ src
    by_cases he₂ : c₂.enabled = false
    · simp [load_cache_file, he₂]
    · cases src <;> simp [load_cache_file, he₂]

/-- C4 counterexample: on a *disabled* cache, a `read_cached_data` call
returns early and increments none of the four counters — the counter total is
unchanged, refuting "every call to read_cached_data increments exactly one of
the four counters" as stated. -/
theorem read_disabled_increments_no_counter :
    (read_cached_data 0 disabledCacher "k").2.stats = disabledCacher.stats ∧
    statsTotal (read_cached_data 0 disabledCacher "k").2.stats
      = statsTotal disabledCacher.stats ∧
    ¬ statsTotal (read_cached_data 0 disabledCacher "k").2.stats
        = statsTotal disabledCacher.stats + 1 := by
  refine ⟨rfl, rfl, by decide⟩

/-- Witness for `read_increments_exactly_one_counter`: an enabled empty cache
read at key `"k"` (a miss) bumps `num_misses` and advances the total by one. -/
theorem read_increments_exactly_one_counter_witness :
    enabledEmptyCacher.enabled = true ∧
    (read_cached_data 0 enabledEmptyCacher "k").2.stats = enabledEmptyCacher.stats.miss ∧
    statsTotal (read_cached_data 0 enabledEmptyCacher "k").2.stats
      = statsTotal enabledEmptyCacher.stats + 1 :=
  ⟨rfl,
    (read_increments_exactly_one_counter 0 enabledEmptyCacher "k" rfl).1 rfl,
    (read_increments_exactly_one_counter 0 enabledEmptyCacher "k" rfl).2.2.2.2.1⟩

/-- C9: with a disabled cache — disabled by configuration, or self-disabled
after a malformed cache file failed to load (last conjunct) — every read
returns Python `None` with the cacher unchanged, and `write_cached_data` and
`save_cache_file` are no-ops on the store and the persisted file. -/
theorem disabled_cache_reads_absent_writes_noop (c : Cacher) (now : Int)
    (k : String) (v : Value) (writeOk : Bool) (file : CacheFile)
    (hdisabled : c.enabled = false) :
    read_cached_data now c k = (none, c) ∧
    write_cached_data now c k v = c ∧
    save_cache_file c writeOk file = file ∧
    (∀ c₂ : Cacher, (load_cache_file c₂ LoadSource.malformed).enabled = false) := by
  refine ⟨by simp [read_cached_data, hdisabled], by simp [write_cached_data, hdisabled],
    by simp [save_cache_file, hdisabled], ?_⟩
  intro c₂
  by_cases he₂ : c₂.enabled = false <;> simp [load_cache_file, he₂]

/-- Witness for `disabled_cache_reads_absent_writes_noop` at `disabledCacher`,
instant 0, key `"k"`, value `"v"`, a successful would-be write, and an absent
file. -/
theorem disabled_cache_reads_absent_writes_noop_witness :
    disabledCacher.enabled = false ∧
    read_cached_data 0 disabledCacher "k" = (none, disabledCacher) ∧
    write_cached_data 0 disabledCacher "k" (Value.str "v") = disabledCacher ∧
    save_cache_file disabledCacher true none = none :=
  ⟨rfl,
    (disabled_cache_reads_absent_writes_noop disabledCacher 0 "k" (Value.str "v") true none rfl).1,
    (disabled_cache_reads_absent_writes_noop disabledCacher 0 "k" (Value.str "v") true none rfl).2.1,
    (disabled_cache_reads_absent_writes_noop disabledCacher 0 "k" (Value.str "v") true none rfl).2.2.1⟩

theorem series_loop (cid : String) (shown : List SeriesItem) :
    ∀ (n : Int) (evs : List TEvent),
      List.foldl
        (fun (acc : Int × List TEvent) series => (acc.1 - 1, acc.2 ++ process_series series cid))
        (n, evs) shown
        = (n - shown.length,
           evs ++ shown.map fun s =>
             TEvent.seriesNode (cid ++ "/" ++ s.id) ("[" ++ s.id ++ "] " ++ s.title) cid) := by
  induction shown with
  | nil => intro n evs; simp
  | cons s rest ih =>
    intro n evs
    rw [List.foldl_cons, ih]
    refine Prod.ext ?_ ?_
    · simp; omega
    · simp [process_series]

theorem pcs_truthy (cfg : Config) (cid : String) (n : Nat) (l : List SeriesItem)
    (hn : n ≠ 0) (hl : l ≠ []) :
    process_children_series cfg ⟨some n, some l⟩ cid
      = (n, n,
          ((l.take cfg.limitSeries).map fun s =>
            TEvent.seriesNode (cid ++ "/" ++ s.id) ("[" ++ s.id ++ "] " ++ s.title) cid)
          ++ (if (n : Int) - (l.take cfg.limitSeries).length > 0 then
                [TEvent.additionalSeries ((n : Int) - (l.take cfg.limitSeries).length) cid]
              else [])) := by
  have hcond : (truthyCount (some n) && truthySeriess (some l)) = true := by
    simp [truthyCount, truthySeriess, hn, hl]
  rw [process_children_series]
  simp only [hcond, if_true, Option.getD_some, series_loop]
  split
  · simp
  · simp

theorem pcs_counts (cfg cfg' : Config) (r : SeriesResp) (cid cid' : String) :
    (process_children_series cfg r cid).1 = (process_children_series cfg' r cid').1 ∧
    (process_children_series cfg r cid).2.1 = (process_children_series cfg' r cid').2.1 := by
  rw [process_children_series, process_children_series]
  by_cases h : (truthyCount r.count && truthySeriess r.seriess) = true <;> simp [h]

theorem pcc_sums (cfg : Config) (d : Nat) (p : String) (cats : List Cat) :
    (process_child_categories cfg d p cats).num_descendent_series
      = (cats.map fun ch => (process_category cfg (d + 1) ch).num_descendent_series).sum ∧
    (process_child_categories cfg d p cats).num_descendent_categories
      = (cats.map fun ch => (process_category cfg (d + 1) ch).num_descendent_categories).sum := by
  induction cats with
  | nil => simp [pcc_nil]
  | cons c rest ih => simp [pcc_cons, ih.1, ih.2]

mutual

theorem cap_indep_cat : ∀ (dL a b d : Nat) (c : Cat),
    (process_category ⟨dL, a⟩ d c).num_descendent_categories
      = (process_category ⟨dL, b⟩ d c).num_descendent_categories ∧
    (process_category ⟨dL, a⟩ d c).num_descendent_series
      = (process_category ⟨dL, b⟩ d c).num_descendent_series
  | dL, a, b, d, .mk i nm sr cats => by
    have hpcs := pcs_counts ⟨dL, a⟩ ⟨dL, b⟩ sr i i
    rw [pc_unfold, pc_unfold]
    by_cases hg : d > dL
    · simp only [hg]
      simp
    · simp only [show ¬ d > (⟨dL, a⟩ : Config).limitDepth from hg,
        show ¬ d > (⟨dL, b⟩ : Config).limitDepth from hg, if_false]
      by_cases hE : cats.isEmpty
      · simp [hE, hpcs.2]
      · have hlist := cap_indep_list dL a b d i cats
        simp [hE, hpcs.2, hlist.1, hlist.2]

theorem cap_indep_list : ∀ (dL a b d : Nat) (p : String) (cats : List Cat),
    (process_child_categories ⟨dL, a⟩ d p cats).num_descendent_categories
      = (process_child_categories ⟨dL, b⟩ d p cats).num_descendent_categories ∧
    (process_child_categories ⟨dL, a⟩ d p cats).num_descendent_series
      = (process_child_categories ⟨dL, b⟩ d p cats).num_descendent_series
  | dL, a, b, d, p, [] => by simp [pcc_nil]
  | dL, a, b, d, p, c :: rest => by
    have h₁ := cap_indep_cat dL a b (d + 1) c
    have h₂ := cap_indep_list dL a b d p rest
    simp [pcc_cons, h₁.1, h₁.2, h₂.1, h₂.2]

end

theorem pcs_returned_totals (cfg : Config) (sr : SeriesResp) (cid : String) :
    (process_children_series cfg sr cid).1
      = (if truthyCount sr.count && truthySeriess sr.seriess then sr.count.getD 0 else 0) ∧
    (process_children_series cfg sr cid).2.1
      = (if truthyCount sr.count && truthySeriess sr.seriess then sr.count.getD 0 else 0) := by
  rw [process_children_series]
  by_cases h : (truthyCount sr.count && truthySeriess sr.seriess) = true <;> simp [h]

/-- C1 counterexample: a category node visited at depth 0 (limit 2) whose
series response carries the server-reported total 500 but an *empty*
delivered item list.  The `if num_series and seriess :` test in the source is
falsy there, so the returned rollup series count is 0 — not 500 plus the
(empty) sum of child rollups, as the claim states for every visited node. -/
theorem rollup_zero_on_empty_item_list :
    (process_category ⟨2, 100⟩ 0 emptySeriesCat).visited = ["20"] ∧
    (process_category ⟨2, 100⟩ 0 emptySeriesCat).num_descendent_series = 0 ∧
    ¬ (process_category ⟨2, 100⟩ 0 emptySeriesCat).num_descendent_series
        = 500 + (([] : List Cat).map fun ch =>
            (process_category ⟨2, 100⟩ (0 + 1) ch).num_descendent_series).sum :=
  ⟨by decide, by decide, by decide⟩

/-- C1 (amended): for *every* visited category node (depth within the limit,
no other hypotheses), the rollup series count returned by `process_category`
equals the own series contribution of the node plus the sum of the rollup
series counts returned by the recursive calls on its child categories, where
the own contribution is the server-reported total exactly when the response
passes the truthiness test of the source (`count` present and nonzero *and*
item list present and non-empty) and 0 otherwise (empty dict, missing or zero
count, missing or empty item list) — so in the truthy case it is the
uncapped server-reported total, never the materialized count; and (second
conjunct) the returned rollup counts are independent of the configured
per-category display cap. -/
theorem rollup_series_adds_truthy_total (cfg : Config) (depth : Nat)
    (cid cname : String) (sr : SeriesResp) (cats : List Cat)
    (hdepth : depth ≤ cfg.limitDepth) :
    (process_category cfg depth (Cat.mk cid cname sr cats)).num_descendent_series
      = (if truthyCount sr.count && truthySeriess sr.seriess then sr.count.getD 0 else 0)
        + (cats.map fun ch => (process_category cfg (depth + 1) ch).num_descendent_series).sum
    ∧ ∀ (dL cap₁ cap₂ d : Nat) (c : Cat),
        (process_category ⟨dL, cap₁⟩ d c).num_descendent_categories
          = (process_category ⟨dL, cap₂⟩ d c).num_descendent_categories ∧
        (process_category ⟨dL, cap₁⟩ d c).num_descendent_series
          = (process_category ⟨dL, cap₂⟩ d c).num_descendent_series := by
  constructor
  · have hg : ¬ depth > cfg.limitDepth := by omega
    rw [pc_unfold]
    by_cases hE : cats.isEmpty
    · have hnil : cats = [] := by simpa [List.isEmpty_iff] using hE
      subst hnil
      simp [hg, (pcs_returned_totals cfg sr cid).2]
    · simp [hg, hE, (pcs_returned_totals cfg sr cid).2,
        (pcc_sums cfg depth cid cats).1]
  · intro dL cap₁ cap₂ d c
    exact cap_indep_cat dL cap₁ cap₂ d c

/-- Witness for `rollup_series_adds_truthy_total`, at two inputs: `smallCat`
(truthy response: total 5, one delivered item — contribution 5) and
`emptySeriesCat` (total 500 but empty item list — contribution 0), both
visited at depth 0 with depth limit 2 and display cap 100. -/
theorem rollup_series_adds_truthy_total_witness :
    (0 : Nat) ≤ (2 : Nat) ∧
    (process_category ⟨2, 100⟩ 0 smallCat).num_descendent_series
      = (if truthyCount (some 5) && truthySeriess (some [⟨"S1", "Series one"⟩]) then
          (some (5 : Nat)).getD 0 else 0)
        + (([] : List Cat).map fun ch =>
            (process_category ⟨2, 100⟩ (0 + 1) ch).num_descendent_series).sum ∧
    (process_category ⟨2, 100⟩ 0 emptySeriesCat).num_descendent_series
      = (if truthyCount (some 500) && truthySeriess (some ([] : List SeriesItem)) then
          (some (500 : Nat)).getD 0 else 0)
        + (([] : List Cat).map fun ch =>
            (process_category ⟨2, 100⟩ (0 + 1) ch).num_descendent_series).sum :=
  ⟨by decide,
    (rollup_series_adds_truthy_total ⟨2, 100⟩ 0 "10" "small"
      ⟨some 5, some [⟨"S1", "Series one"⟩]⟩ [] (by decide)).1,
    (rollup_series_adds_truthy_total ⟨2, 100⟩ 0 "20" "empty"
      ⟨some 500, some []⟩ [] (by decide)).1⟩

/-- C2 counterexample: the very scenario given in the specification — depth limit 1, a
root with two child categories, each child with one child category of its
own.  The traversal visits exactly the root and its two children (the
grandchildren are never visited), but the descendant-category count of the root is
4, not 2: each visited child *fetches* its own subcategory list and counts
its grandchild in `len(categories)` before the depth guard stops the
recursive call. -/
theorem depth_scenario_root_rollup_is_four :
    (process_category ⟨1, 100⟩ 0 depthScenarioRoot).visited = ["0", "1", "2"] ∧
    (process_category ⟨1, 100⟩ 0 depthScenarioRoot).num_descendent_categories = 4 ∧
    ¬ (process_category ⟨1, 100⟩ 0 depthScenarioRoot).num_descendent_categories = 2 :=
  ⟨by decide, by decide, by decide⟩

/-- C2 (amended): a node whose depth exceeds the configured maximum is never
visited — its call returns immediately with zero counts, no events and no
visits — so the *recursive calls* on such nodes contribute nothing to any rollup;
but a node listed in the subcategory response of a visited parent is still
counted once in the direct category count of that parent even when it lies beyond the
depth limit.  In the scenario of the spec (max depth 1, root with 2 children, each
with 1 child) the traversal visits exactly the root and its 2 children, never
the grandchildren, and the descendant-category count of the root is 4 (its 2
children plus the 2 grandchildren counted by the direct counts of the children),
not 2. -/
theorem depth_limit_stops_visits (cfg : Config) (depth : Nat) (c : Cat)
    (hdeep : depth > cfg.limitDepth) :
    process_category cfg depth c = ⟨0, 0, 0, 0, [], []⟩ ∧
    (process_category ⟨1, 100⟩ 0 depthScenarioRoot).visited = ["0", "1", "2"] ∧
    (process_category ⟨1, 100⟩ 0 depthScenarioRoot).num_descendent_categories = 4 := by
  refine ⟨?_, by decide, by decide⟩
  cases c with
  | mk i nm sr cats => rw [pc_unfold]; simp [hdeep]

/-- Witness for `depth_limit_stops_visits`: a grandchild node of the scenario
processed at depth 2 against depth limit 1. -/
theorem depth_limit_stops_visits_witness :
    (2 : Nat) > (1 : Nat) ∧
    process_category ⟨1, 100⟩ 2 (depthScenarioGrandchild "9") = ⟨0, 0, 0, 0, [], []⟩ :=
  ⟨by decide, (depth_limit_stops_visits ⟨1, 100⟩ 2 (depthScenarioGrandchild "9") (by decide)).1⟩

/-- C7: for a series response carrying a (nonzero) server-reported total `n`
and a non-empty item list `l`, the number of series header nodes materialized
is `min LIMIT_SERIES (length l)` — the display cap applied to the delivered
items — and exactly one synthetic "additional series" node is appended if and
only if `n` minus the materialized count is strictly positive, reporting
exactly that difference; the returned totals are both `n`. -/
theorem series_nodes_capped_and_additional (cfg : Config) (cid : String)
    (n : Nat) (l : List SeriesItem) (hn : n ≠ 0) (hl : l ≠ []) :
    (((process_children_series cfg ⟨some n, some l⟩ cid).2.2.filter
        TEvent.isSeriesNode).length = min cfg.limitSeries l.length) ∧
    ((process_children_series cfg ⟨some n, some l⟩ cid).2.2.filter TEvent.isAdditional
      = (if (n : Int) - min cfg.limitSeries l.length > 0 then
          [TEvent.additionalSeries ((n : Int) - min cfg.limitSeries l.length) cid]
         else [])) ∧
    (process_children_series cfg ⟨some n, some l⟩ cid).1 = n ∧
    (process_children_series cfg ⟨some n, some l⟩ cid).2.1 = n := by
  rw [pcs_truthy cfg cid n l hn hl]
  have hlen : ((l.take cfg.limitSeries).length : Int) = ((min cfg.limitSeries l.length : Nat) : Int) := by
    simp [List.length_take]
  refine ⟨?_, ?_, rfl, rfl⟩
  · rw [List.filter_append]
    have h₁ : (((l.take cfg.limitSeries).map fun s =>
        TEvent.seriesNode (cid ++ "/" ++ s.id) ("[" ++ s.id ++ "] " ++ s.title) cid).filter
          TEvent.isSeriesNode)
        = ((l.take cfg.limitSeries).map fun s =>
            TEvent.seriesNode (cid ++ "/" ++ s.id) ("[" ++ s.id ++ "] " ++ s.title) cid) := by
      rw [List.filter_eq_self]
      intro a ha
      rcases List.mem_map.mp ha with ⟨s, _, rfl⟩
      rfl
    rw [h₁]
    split
    · simp [TEvent.isAdditional, TEvent.isSeriesNode, List.length_take]
    · simp [List.length_take]
  · rw [List.filter_append]
    have h₁ : (((l.take cfg.limitSeries).map fun s =>
        TEvent.seriesNode (cid ++ "/" ++ s.id) ("[" ++ s.id ++ "] " ++ s.title) cid).filter
          TEvent.isAdditional) = [] := by
      rw [List.filter_eq_nil_iff]
      intro a ha
      rcases List.mem_map.mp ha with ⟨s, _, rfl⟩
      simp [TEvent.isAdditional]
    rw [h₁, List.nil_append]
    rw [hlen]
    split
    · simp [List.filter, TEvent.isAdditional]
    · simp

/-- Witness for `series_nodes_capped_and_additional`: total 5, three
delivered items, display cap 2 — two series nodes materialize and one
"additional series" node reports 3. -/
theorem series_nodes_capped_and_additional_witness :
    (5 : Nat) ≠ 0 ∧
    ([⟨"a", "A"⟩, ⟨"b", "B"⟩, ⟨"c", "C"⟩] : List SeriesItem) ≠ [] ∧
    (((process_children_series ⟨0, 2⟩ ⟨some 5, some [⟨"a", "A"⟩, ⟨"b", "B"⟩, ⟨"c", "C"⟩]⟩ "7").2.2.filter
        TEvent.isSeriesNode).length
      = min (Config.mk 0 2).limitSeries ([⟨"a", "A"⟩, ⟨"b", "B"⟩, ⟨"c", "C"⟩] : List SeriesItem).length) :=
  ⟨by decide, by decide,
    (series_nodes_capped_and_additional ⟨0, 2⟩ "7" 5 [⟨"a", "A"⟩, ⟨"b", "B"⟩, ⟨"c", "C"⟩]
      (by decide) (by decide)).1⟩

theorem read_preserves (now : Int) (c : Cacher) (k : String) :
    (read_cached_data now c k).2.enabled = c.enabled ∧
    (read_cached_data now c k).2.cache_dict = c.cache_dict ∧
    (read_cached_data now c k).2.cache_expiration_hours = c.cache_expiration_hours := by
  rw [read_cached_data]
  by_cases he : c.enabled = false
  · simp [he]
  · simp only [he, if_false]
    cases hd : c.cache_dict k with
    | none => simp
    | some e =>
      cases hts : e.timestamp with
      | none => simp [hts]
      | some ts =>
        cases ts with
        | bad s => simp [hts, fromisoformat]
        | good t =>
          by_cases hlt : now - t < timedeltaHours c.cache_expiration_hours <;>
            simp [hts, fromisoformat, hlt]

theorem mcr_keys_eq (env env' : Env) (now : Int) (url : String) (st : AppState) :
    (make_caching_request env now url st).2.2 = (make_caching_request env' now url st).2.2 ∧
    ∀ u ∈ (make_caching_request env now url st).2.2, u = url := by
  by_cases h : (((read_cached_data now st.cacher url).1).getD Value.null).truthy = false <;>
    simp [make_caching_request, h]

theorem grd_not_aborted (env : Env) (now : Int) (rp : String) (st : AppState)
    (h : strContains (pyLower rp) API_KEY_PARAM_NAME = false) :
    ∃ v st', get_rest_data env now rp st
      = RestResult.ok v st'
          (make_caching_request env now (full_url env.base_url rp) st).2.2 := by
  rw [get_rest_data]
  simp only [h, Bool.false_eq_true, if_false]
  cases hm : (make_caching_request env now (full_url env.base_url rp) st).1 with
  | str s =>
    cases hj : env.json_loads s with
    | some v =>
      exact ⟨v, (make_caching_request env now (full_url env.base_url rp) st).2.1,
        by simp [hm, hj]⟩
    | none =>
      exact ⟨Value.obj [], (make_caching_request env now (full_url env.base_url rp) st).2.1,
        by simp [hm, hj]⟩
  | null =>
    exact ⟨Value.obj [], (make_caching_request env now (full_url env.base_url rp) st).2.1,
      by simp [hm]⟩
  | bool b =>
    exact ⟨Value.obj [], (make_caching_request env now (full_url env.base_url rp) st).2.1,
      by simp [hm]⟩
  | num m =>
    exact ⟨Value.obj [], (make_caching_request env now (full_url env.base_url rp) st).2.1,
      by simp [hm]⟩
  | arr items =>
    exact ⟨Value.obj [], (make_caching_request env now (full_url env.base_url rp) st).2.1,
      by simp [hm]⟩
  | obj fields =>
    exact ⟨Value.obj [], (make_caching_request env now (full_url env.base_url rp) st).2.1,
      by simp [hm]⟩

/-- C5: the two per-category requests never raise to the traversal, and every
failure mode yields an empty result with zero counts of that kind while the
node still returns normally.  Conjuncts: (1)/(2) for any environment and
state, `get_child_categories` / `get_children_series` return `ok` (never an
exception; the only non-`ok` outcome of `get_rest_data` is the deliberate
api-key abort, excluded by the hypotheses that the assembled paths do not
contain the parameter name — true of every path the traversal builds from
numeric category ids); (3) a remote failure (no usable cached value, live
call raises) yields the empty dict `{}`; (4) an undecodable payload yields
`{}`; (5) the empty dict produces `(0, 0)` series counts and no events;
(6) a node with failed series and category responses is still processed,
returning zero counts and continuing (its visit completes normally). -/
theorem requests_fail_soft (env : Env) (now : Int) (limitSeries : Nat)
    (pid : String) (st : AppState) (cfg : Config) (cid nm : String) (d : Nat)
    (h₁ : strContains (pyLower (child_categories_path pid)) API_KEY_PARAM_NAME = false)
    (h₂ : strContains (pyLower (children_series_path limitSeries pid)) API_KEY_PARAM_NAME = false) :
    (∃ v st' ks, get_child_categories env now pid st = RestResult.ok v st' ks) ∧
    (∃ v st' ks, get_children_series env now limitSeries pid st = RestResult.ok v st' ks) ∧
    (∀ p, strContains (pyLower p) API_KEY_PARAM_NAME = false →
      (((read_cached_data now st.cacher (full_url env.base_url p)).1).getD Value.null).truthy = false →
      env.remote (full_url env.base_url p ++ "&" ++ env.api_key_param) = none →
      ∃ st' ks, get_rest_data env now p st = RestResult.ok (Value.obj []) st' ks) ∧
    (∀ p s, strContains (pyLower p) API_KEY_PARAM_NAME = false →
      (((read_cached_data now st.cacher (full_url env.base_url p)).1).getD Value.null).truthy = false →
      env.remote (full_url env.base_url p ++ "&" ++ env.api_key_param) = some s →
      env.json_loads s = none →
      ∃ st' ks, get_rest_data env now p st = RestResult.ok (Value.obj []) st' ks) ∧
    process_children_series cfg ⟨none, none⟩ cid = (0, 0, []) ∧
    (d ≤ cfg.limitDepth →
      process_category cfg d (Cat.mk cid nm ⟨none, none⟩ []) = ⟨0, 0, 0, 0, [], [cid]⟩) := by
  refine ⟨?_, ?_, ?_, ?_, rfl, ?_⟩
  · obtain ⟨v, st', hok⟩ := grd_not_aborted env now (child_categories_path pid) st h₁
    exact ⟨v, st', _, hok⟩
  · obtain ⟨v, st', hok⟩ := grd_not_aborted env now (children_series_path limitSeries pid) st h₂
    exact ⟨v, st', _, hok⟩
  · intro p hp hfalsy hremote
    have hdata : (make_caching_request env now (full_url env.base_url p) st).1 = Value.null := by
      rw [make_caching_request]
      simp [hfalsy, make_api_request, hremote, pyOptStr]
    exact ⟨(make_caching_request env now (full_url env.base_url p) st).2.1,
      (make_caching_request env now (full_url env.base_url p) st).2.2,
      by rw [get_rest_data]; simp [hp, hdata]⟩
  · intro p s hp hfalsy hremote hjson
    have hdata : (make_caching_request env now (full_url env.base_url p) st).1 = Value.str s := by
      rw [make_caching_request]
      simp [hfalsy, make_api_request, hremote, pyOptStr]
    exact ⟨(make_caching_request env now (full_url env.base_url p) st).2.1,
      (make_caching_request env now (full_url env.base_url p) st).2.2,
      by rw [get_rest_data]; simp [hp, hdata, hjson]⟩
  · intro hd
    have hg : ¬ d > cfg.limitDepth := by omega
    rw [pc_unfold]
    simp [hg, process_children_series, truthyCount]

/-- Witness for `requests_fail_soft`: the failing environment (remote always
raises) over a fresh enabled cache, root category id `"0"`, limit 5: both
request helpers return `ok`, and the remote-failure conjunct yields the empty
dict for the category-children path. -/
theorem requests_fail_soft_witness :
    strContains (pyLower (child_categories_path "0")) API_KEY_PARAM_NAME = false ∧
    strContains (pyLower (children_series_path 5 "0")) API_KEY_PARAM_NAME = false ∧
    (∃ v st' ks, get_child_categories failingEnv 0 "0" st0 = RestResult.ok v st' ks) ∧
    (∃ st' ks, get_rest_data failingEnv 0 (child_categories_path "0") st0
      = RestResult.ok (Value.obj []) st' ks) ∧
    process_children_series ⟨1, 5⟩ ⟨none, none⟩ "9" = (0, 0, []) ∧
    process_category ⟨1, 5⟩ 0 (Cat.mk "9" "x" ⟨none, none⟩ []) = ⟨0, 0, 0, 0, [], ["9"]⟩ :=
  ⟨by decide, by decide,
    (requests_fail_soft failingEnv 0 5 "0" st0 ⟨1, 5⟩ "9" "x" 0 (by decide) (by decide)).1,
    (requests_fail_soft failingEnv 0 5 "0" st0 ⟨1, 5⟩ "9" "x" 0 (by decide) (by decide)).2.2.1
      (child_categories_path "0") (by decide) (by decide) rfl,
    (requests_fail_soft failingEnv 0 5 "0" st0 ⟨1, 5⟩ "9" "x" 0 (by decide) (by decide)).2.2.2.2.1,
    (requests_fail_soft failingEnv 0 5 "0" st0 ⟨1, 5⟩ "9" "x" 0 (by decide) (by decide)).2.2.2.2.2
      (by decide)⟩

/-- C6 counterexample: an enabled empty cache, URL `"u"` absent from it, and
an unreachable remote host.  The live call fails, yet `make_caching_request`
still writes a cache entry for `"u"` — holding the null response — refuting
"if the remote call fails, no new cache entry is written for that URL". -/
theorem failed_remote_still_writes_entry :
    st0.cacher.cache_dict "u" = none ∧
    failingEnv.remote ("u" ++ "&" ++ failingEnv.api_key_param) = none ∧
    (make_caching_request failingEnv 0 "u" st0).2.1.cacher.cache_dict "u"
      = some ⟨some (TStamp.good 0), Value.null⟩ :=
  ⟨rfl, rfl, rfl⟩

/-- C6 (amended): on an enabled cache, an entry for a request URL is written
exactly when the cached read yields no usable (truthy) value — in that case
the live call is made and its outcome is *always* written back, a failed call
storing the null response as the value of the entry (which a later read treats as
falsy, forcing a retry); when the read yields a truthy value, no live call is
made and the store is unchanged. -/
theorem caching_request_always_writes_after_live_call (env : Env) (now : Int)
    (url : String) (st : AppState) (henabled : st.cacher.enabled = true) :
    ((((read_cached_data now st.cacher url).1).getD Value.null).truthy = false →
      (make_caching_request env now url st).2.1.cacher.cache_dict url
        = some ⟨some (TStamp.good now),
            pyOptStr (env.remote (url ++ "&" ++ env.api_key_param))⟩ ∧
      (make_caching_request env now url st).2.1.total_server_calls
        = st.total_server_calls + 1) ∧
    ((((read_cached_data now st.cacher url).1).getD Value.null).truthy = true →
      (make_caching_request env now url st).2.1.cacher.cache_dict
        = st.cacher.cache_dict ∧
      (make_caching_request env now url st).2.1.total_server_calls
        = st.total_server_calls) := by
  have hpres := read_preserves now st.cacher url
  constructor
  · intro hfalsy
    have hen' : ¬ (read_cached_data now st.cacher url).2.enabled = false := by
      rw [hpres.1, henabled]; simp
    rw [make_caching_request]
    simp only [hfalsy]
    simp [make_api_request, write_cached_data, hen', hpres.2.1]
  · intro htruthy
    rw [make_caching_request]
    simp [htruthy, hpres.2.1]

/-- Witness for `caching_request_always_writes_after_live_call`: the failing
environment over a fresh enabled cache and URL `"u"` — the read is falsy (a
miss), one server call is made, and the written entry holds `null`. -/
theorem caching_request_always_writes_after_live_call_witness :
    st0.cacher.enabled = true ∧
    (((read_cached_data 0 st0.cacher "u").1).getD Value.null).truthy = false ∧
    (make_caching_request failingEnv 0 "u" st0).2.1.cacher.cache_dict "u"
      = some ⟨some (TStamp.good 0),
          pyOptStr (failingEnv.remote ("u" ++ "&" ++ failingEnv.api_key_param))⟩ ∧
    (make_caching_request failingEnv 0 "u" st0).2.1.total_server_calls
      = st0.total_server_calls + 1 :=
  ⟨rfl, rfl,
    ((caching_request_always_writes_after_live_call failingEnv 0 "u" st0 rfl).1 rfl).1,
    ((caching_request_always_writes_after_live_call failingEnv 0 "u" st0 rfl).1 rfl).2⟩

/-- C8: the cache is never keyed by — and never sees — the credential.  If
the rest path contains the `api_key` parameter name (lower-cased), the
process aborts before any request or cache access.  Otherwise the run
completes with an `ok` result, the list of cache keys read or written is
*identical* for any two credential values (the key used never depends on the
credential; the credential is appended only to the live-request URL inside
`make_api_request`, after the cache read), and every cache key used is
exactly the credential-free full URL `{base_url}/{rest_path}&file_type=json`. -/
theorem cache_keys_credential_free (base : String) (jp : String → Option Value)
    (rm : String → Option String) (k₁ k₂ : String) (now : Int) (rp : String)
    (st : AppState) :
    (strContains (pyLower rp) API_KEY_PARAM_NAME = true →
      get_rest_data ⟨base, k₁, rm, jp⟩ now rp st = RestResult.aborted) ∧
    (strContains (pyLower rp) API_KEY_PARAM_NAME = false →
      ∃ ks, (∃ v₁ st₁, get_rest_data ⟨base, k₁, rm, jp⟩ now rp st = RestResult.ok v₁ st₁ ks) ∧
            (∃ v₂ st₂, get_rest_data ⟨base, k₂, rm, jp⟩ now rp st = RestResult.ok v₂ st₂ ks) ∧
            ∀ u ∈ ks, u = full_url base rp) := by
  constructor
  · intro h
    rw [get_rest_data]
    simp [h]
  · intro h
    obtain ⟨v₁, st₁, h₁⟩ := grd_not_aborted ⟨base, k₁, rm, jp⟩ now rp st h
    obtain ⟨v₂, st₂, h₂⟩ := grd_not_aborted ⟨base, k₂, rm, jp⟩ now rp st h
    have hkeys := mcr_keys_eq ⟨base, k₁, rm, jp⟩ ⟨base, k₂, rm, jp⟩ now (full_url base rp) st
    refine ⟨(make_caching_request ⟨base, k₁, rm, jp⟩ now (full_url base rp) st).2.2,
      ⟨v₁, st₁, h₁⟩, ⟨v₂, st₂, ?_⟩, hkeys.2⟩
    rw [h₂, hkeys.1]

/-- Witness for `cache_keys_credential_free`: two distinct credentials over
the category-children path for id `"0"` and a fresh state — same key list,
every key the credential-free full URL; and an `api_key`-bearing path aborts. -/
theorem cache_keys_credential_free_witness :
    strContains (pyLower (child_categories_path "0")) API_KEY_PARAM_NAME = false ∧
    (∃ ks, (∃ v₁ st₁, get_rest_data ⟨"b", "api_key=aaa", fun _ => some "r", fun _ => some (Value.obj [])⟩
              0 (child_categories_path "0") st0 = RestResult.ok v₁ st₁ ks) ∧
           (∃ v₂ st₂, get_rest_data ⟨"b", "api_key=bbb", fun _ => some "r", fun _ => some (Value.obj [])⟩
              0 (child_categories_path "0") st0 = RestResult.ok v₂ st₂ ks) ∧
           ∀ u ∈ ks, u = full_url "b" (child_categories_path "0")) ∧
    strContains (pyLower "category/series?api_key=zzz") API_KEY_PARAM_NAME = true ∧
    get_rest_data ⟨"b", "api_key=aaa", fun _ => some "r", fun _ => some (Value.obj [])⟩
      0 "category/series?api_key=zzz" st0 = RestResult.aborted :=
  ⟨by decide,
    (cache_keys_credential_free "b" (fun _ => some (Value.obj [])) (fun _ => some "r")
      "api_key=aaa" "api_key=bbb" 0 (child_categories_path "0") st0).2 (by decide),
    by decide,
    (cache_keys_credential_free "b" (fun _ => some (Value.obj [])) (fun _ => some "r")
      "api_key=aaa" "api_key=bbb" 0 "category/series?api_key=zzz" st0).1 (by decide)⟩

/-- C10: a cached entry that is present and unexpired but holds a falsy data
value (for example the `None` stored after a failed remote call, or an empty
response body) is read back as a *hit* — the hit counter advances — yet
`make_caching_request` still performs a live remote call, counts it, and
overwrites the entry with the fresh outcome: a hit does not imply that a
remote call was avoided. -/
theorem falsy_hit_still_calls_remote (env : Env) (now : Int) (url : String)
    (st : AppState) (e : CacheEntry) (t : Int)
    (henabled : st.cacher.enabled = true)
    (hentry : st.cacher.cache_dict url = some e)
    (hts : e.timestamp = some (TStamp.good t))
    (hage : now - t < timedeltaHours st.cacher.cache_expiration_hours)
    (hfalsy : e.data.truthy = false) :
    (make_caching_request env now url st).2.1.cacher.stats.num_hits
      = st.cacher.stats.num_hits + 1 ∧
    (make_caching_request env now url st).2.1.total_server_calls
      = st.total_server_calls + 1 ∧
    (make_caching_request env now url st).2.1.cacher.cache_dict url
      = some ⟨some (TStamp.good now),
          pyOptStr (env.remote (url ++ "&" ++ env.api_key_param))⟩ ∧
    (make_caching_request env now url st).1
      = pyOptStr (env.remote (url ++ "&" ++ env.api_key_param)) := by
  have hen' : ¬ st.cacher.enabled = false := by simp [henabled]
  have hread : read_cached_data now st.cacher url
      = (some e.data, { st.cacher with stats := st.cacher.stats.hit }) := by
    rw [read_cached_data]
    simp [hen', hentry, hts, fromisoformat, hage]
  rw [make_caching_request]
  simp only [hread, Option.getD_some, hfalsy]
  simp [make_api_request, write_cached_data, hen', CacheStats.hit]

/-- Witness for `falsy_hit_still_calls_remote`: the cache holds a null-valued
entry for `"u"` written at instant 0, read at instant 10 against a 24h TTL,
with a live remote that answers `"resp"`. -/
theorem falsy_hit_still_calls_remote_witness :
    st1.cacher.enabled = true ∧
    st1.cacher.cache_dict "u" = some ⟨some (TStamp.good 0), Value.null⟩ ∧
    (10 : Int) - 0 < timedeltaHours st1.cacher.cache_expiration_hours ∧
    Value.null.truthy = false ∧
    (make_caching_request okEnv 10 "u" st1).2.1.cacher.stats.num_hits
      = st1.cacher.stats.num_hits + 1 ∧
    (make_caching_request okEnv 10 "u" st1).2.1.total_server_calls
      = st1.total_server_calls + 1 ∧
    (make_caching_request okEnv 10 "u" st1).2.1.cacher.cache_dict "u"
      = some ⟨some (TStamp.good 10),
          pyOptStr (okEnv.remote ("u" ++ "&" ++ okEnv.api_key_param))⟩ :=
  ⟨rfl, rfl, by decide, rfl,
    (falsy_hit_still_calls_remote okEnv 10 "u" st1 ⟨some (TStamp.good 0), Value.null⟩ 0
      rfl rfl rfl (by decide) rfl).1,
    (falsy_hit_still_calls_remote okEnv 10 "u" st1 ⟨some (TStamp.good 0), Value.null⟩ 0
      rfl rfl rfl (by decide) rfl).2.1,
    (falsy_hit_still_calls_remote okEnv 10 "u" st1 ⟨some (TStamp.good 0), Value.null⟩ 0
      rfl rfl rfl (by decide) rfl).2.2.1⟩
